import Mathlib

/-!
Verification of the DMA Ping Pong character-device driver (dmapp).

The driver exports one DMA buffer per device and enforces strict
alternating-turn access between two user-space participants using two
single-shot DMA fences.  We embed the driver's bookkeeping state
(the two `user` slots with their `is_locked` flags and the signaled
state of the two fences) and the three file operations
`dmapp_cdev_open`, `dmapp_cdev_release` and `dmapp_cdev_ioctl` as pure
functions; the potentially blocking `DMAPP_IOCTL_BUFFER_LOCK` call is
modelled as returning `none` while the waited-on fence is pending, and
interruption of the wait (`dma_fence_wait` returning `-ERESTARTSYS`)
is an explicit boolean input.  Device attach
(`dmapp_platform_driver_probe`) yields the initial state.  Traces are
lists of events run by `dmappExec`; an event whose call cannot
complete (a blocked lock) leaves the state unchanged.
-/

/-- Linux errno `EINVAL` (22). -/
def EINVAL : Int := 22

/-- Linux errno `ENOTTY` (25), returned for unknown ioctl codes. -/
def ENOTTY : Int := 25

/-- Linux errno `ERESTARTSYS` (512), returned by an interrupted
`dma_fence_wait`. -/
def ERESTARTSYS : Int := 512

/-- `DMAPP_BUFFER_SIZE`: the fixed word count of the exported buffer. -/
def DMAPP_BUFFER_SIZE : Int := 10

/-- The bookkeeping state of one `struct dmapp_device`.

`user0`/`user1` model `dmapp_dev->user[0]`/`user[1]`: `none` when the
slot pointer is NULL, `some b` when a `struct dmapp_user` occupies the
slot with `is_locked = b`.  `fence0`/`fence1` model whether
`dmapp_dev->fence[0]`/`fence[1]` is currently signaled
(`dma_fence_is_signaled`). -/
structure DmappState where
  user0 : Option Bool
  user1 : Option Bool
  fence0 : Bool
  fence1 : Bool
deriving DecidableEq, Repr, Fintype

/-- Read user slot `p` (the parity index). -/
def DmappState.user (s : DmappState) (p : Fin 2) : Option Bool :=
  if p = 0 then s.user0 else s.user1

/-- Write user slot `p`. -/
def DmappState.setUser (s : DmappState) (p : Fin 2) (u : Option Bool) :
    DmappState :=
  if p = 0 then { s with user0 := u } else { s with user1 := u }

/-- Read the signaled state of fence `i`. -/
def DmappState.fence (s : DmappState) (i : Fin 2) : Bool :=
  if i = 0 then s.fence0 else s.fence1

/-- Write the signaled state of fence `i`. -/
def DmappState.setFence (s : DmappState) (i : Fin 2) (f : Bool) :
    DmappState :=
  if i = 0 then { s with fence0 := f } else { s with fence1 := f }

/-- `dma_fence_is_signaled` on fence `i`. -/
def dma_fence_is_signaled (s : DmappState) (i : Fin 2) : Bool :=
  s.fence i

/-- `dma_fence_signal` on fence `i`: latch pending → signaled and
return 0; return `-EINVAL` (and change nothing) when the fence was
already signaled. -/
def dma_fence_signal (s : DmappState) (i : Fin 2) : Int × DmappState :=
  if s.fence i then (-EINVAL, s) else (0, s.setFence i true)

/-- `dma_fence_init` on fence `i`: (re-)arm the fence to pending. -/
def dma_fence_init_fence (s : DmappState) (i : Fin 2) : DmappState :=
  s.setFence i false

/-- `dmapp_platform_driver_probe`: the device state right after a
successful attach.  `kzalloc` leaves both user slots NULL, both
fences are initialized pending by `dma_fence_init`, and then
`fence[1]` is signaled ("allowing the odd pass to start"). -/
def dmapp_platform_driver_probe : DmappState :=
  (dma_fence_signal
    { user0 := none, user1 := none, fence0 := false, fence1 := false } 1).2

/-- `dmapp_cdev_open`: scan the two user slots in order 0, 1 and
register a fresh user (with `is_locked = false`, from `kzalloc`) in
the first free one; fail with `-EINVAL` when both are occupied. -/
def dmapp_cdev_open (s : DmappState) : Int × DmappState :=
  if s.user0 = none then (0, { s with user0 := some false })
  else if s.user1 = none then (0, { s with user1 := some false })
  else (-EINVAL, s)

/-- `dmapp_cdev_release` for the file whose user occupies slot `p`:
clear the slot; when the departing user held `is_locked`, pick
`signal_fence = fence[1-p]` and, if that fence is not already
signaled, signal it ("optionally reset the signal_fence to prevent
deadlocks").  When the user matches neither slot nothing happens and
0 is returned. -/
def dmapp_cdev_release (s : DmappState) (p : Fin 2) : Int × DmappState :=
  match s.user p with
  | none => (0, s)
  | some locked =>
    let s1 := s.setUser p none
    if locked then
      if dma_fence_is_signaled s1 (1 - p) then (0, s1)
      else dma_fence_signal s1 (1 - p)
    else (0, s1)

/-- The ioctl command codes of the dmapp control surface; `unknown`
stands for any unrecognized code (the `default:` branch). -/
inductive DmappCmd where
  | getBufferSize
  | getBufferFd
  | getBufferParity
  | bufferLock
  | bufferUnlock
  | unknown
deriving DecidableEq, Repr, Fintype

/-- `dmapp_cdev_ioctl` issued by the user occupying slot `p`.

The C code first validates the caller (`-EINVAL` when it matches
neither slot) and, for `BUFFER_LOCK`/`BUFFER_UNLOCK`, short-circuits
with 0 when the caller is already locked/unlocked.  For `BUFFER_LOCK`
it then blocks in `dma_fence_wait(wait_fence, true)` with
`wait_fence = fence[p]`: we return `none` while that fence is pending
(the call has not completed), `some (-ERESTARTSYS, s)` when the wait
is interrupted (`intr = true`), and on success re-arm `fence[p]` with
`dma_fence_init` and set `is_locked`.  For `BUFFER_UNLOCK` it signals
`signal_fence = fence[1-p]`, keeps the (possibly negative) result of
`dma_fence_signal` as the ioctl's return value, and clears
`is_locked`.  `GET_BUFFER_FD` calls `dma_buf_fd`, modelled as
succeeding with fd 0. -/
def dmapp_cdev_ioctl (s : DmappState) (p : Fin 2) (cmd : DmappCmd)
    (intr : Bool) : Option (Int × DmappState) :=
  match s.user p with
  | none => some (-EINVAL, s)
  | some locked =>
    match cmd with
    | .getBufferSize => some (DMAPP_BUFFER_SIZE, s)
    | .getBufferParity => some (((p : Nat) : Int), s)
    | .getBufferFd => some (0, s)
    | .bufferLock =>
      if locked then some (0, s)
      else if intr then some (-ERESTARTSYS, s)
      else if s.fence p then
        some (0, (dma_fence_init_fence s p).setUser p (some true))
      else none
    | .bufferUnlock =>
      if locked then
        let rs := dma_fence_signal s (1 - p)
        some (rs.1, rs.2.setUser p (some false))
      else some (0, s)
    | .unknown => some (-ENOTTY, s)

/-- One externally visible event on the device: an `open` of the
device file, a `close` of the file occupying slot `p`, or an ioctl by
the occupant of slot `p` (with `intr` recording whether a blocking
wait inside it is interrupted). -/
inductive DmappEvent where
  | evOpen
  | evClose (p : Fin 2)
  | evIoctl (p : Fin 2) (cmd : DmappCmd) (intr : Bool)
deriving DecidableEq, Repr, Fintype

/-- Run one event; `none` means the call cannot complete yet (a
blocked `BUFFER_LOCK`). -/
def dmappStep (s : DmappState) (e : DmappEvent) : Option (Int × DmappState) :=
  match e with
  | .evOpen => some (dmapp_cdev_open s)
  | .evClose p => some (dmapp_cdev_release s p)
  | .evIoctl p cmd intr => dmapp_cdev_ioctl s p cmd intr

/-- Run a list of events; an event whose call cannot complete leaves
the state unchanged (the blocked call simply has not returned). -/
def dmappExec (s : DmappState) : List DmappEvent → DmappState
  | [] => s
  | e :: t =>
    match dmappStep s e with
    | none => dmappExec s t
    | some rs => dmappExec rs.2 t

/-- An event is a successful turn acquisition at state `s` when it is
a `BUFFER_LOCK` by a registered, not-yet-locked user whose wait is
not interrupted and whose own fence is signaled; it yields that
caller's parity. -/
def isAcquire (s : DmappState) (e : DmappEvent) : Option (Fin 2) :=
  match e with
  | .evIoctl p .bufferLock intr =>
    match s.user p, intr, s.fence p with
    | some false, false, true => some p
    | _, _, _ => none
  | _ => none

/-- The parities of the successful turn acquisitions along a trace. -/
def dmappAcquires (s : DmappState) : List DmappEvent → List (Fin 2)
  | [] => []
  | e :: t =>
    match dmappStep s e with
    | none => dmappAcquires s t
    | some rs =>
      match isAcquire s e with
      | some p => p :: dmappAcquires rs.2 t
      | none => dmappAcquires rs.2 t

/-- The contribution of one user slot to the turn-token count: 1 when
it holds a locked user. -/
def lockedCount (u : Option Bool) : Nat :=
  if u = some true then 1 else 0

/-- The turn-token count of a state: signaled fences plus locked
registered users. -/
def tokens (s : DmappState) : Nat :=
  (if s.fence0 then 1 else 0) + (if s.fence1 then 1 else 0) +
    lockedCount s.user0 + lockedCount s.user1

/-- Both registered users hold their `is_locked` flag at once. -/
def bothLocked (s : DmappState) : Bool :=
  (s.user0 == some true) && (s.user1 == some true)

/-- The parity of the next acquisition that can succeed from `s`
(meaningful when `tokens s = 1`): the locked side's opposite, else
the side whose fence is signaled. -/
def nextParity (s : DmappState) : Fin 2 :=
  if s.user0 = some true then 1
  else if s.user1 = some true then 0
  else if s.fence0 then 0 else 1

/-- `altFrom p l`: the list `l` is `p, 1-p, p, …`, a strict parity
alternation starting at `p`. -/
def altFrom : Fin 2 → List (Fin 2) → Bool
  | _, [] => true
  | p, q :: t => (q == p) && altFrom (1 - p) t

/-- A non-interrupted `BUFFER_LOCK` by the occupant of slot `p`
completes right away with return value 0. -/
def lockSucceeds (s : DmappState) (p : Fin 2) : Bool :=
  match dmapp_cdev_ioctl s p DmappCmd.bufferLock false with
  | some rs => rs.1 == 0
  | none => false

/-- A successful `BUFFER_LOCK` by slot `p`'s occupant moves the turn
token from the consumed fence (re-armed to pending) to the caller's
`is_locked` flag, keeping the token count at one. -/
def lockMovesToken (s : DmappState) (p : Fin 2) : Bool :=
  match dmapp_cdev_ioctl s p DmappCmd.bufferLock false with
  | some rs =>
    (rs.1 == 0) && (rs.2.fence p == false) && (rs.2.user p == some true) &&
      (tokens rs.2 == 1)
  | none => false

/-- A `BUFFER_UNLOCK` by a locked occupant of slot `p` moves the turn
token from the caller's `is_locked` flag to the other parity's fence,
keeping the token count at one. -/
def unlockMovesToken (s : DmappState) (p : Fin 2) : Bool :=
  match dmapp_cdev_ioctl s p DmappCmd.bufferUnlock false with
  | some rs =>
    (rs.1 == 0) && (rs.2.fence (1 - p) == true) &&
      (rs.2.user p == some false) && (tokens rs.2 == 1)
  | none => false

/-- A close by a locked occupant of slot `p` (abandonment) moves the
turn token from the departing flag to the other parity's fence,
keeping the token count at one. -/
def releaseMovesToken (s : DmappState) (p : Fin 2) : Bool :=
  ((dmapp_cdev_release s p).1 == 0) &&
    ((dmapp_cdev_release s p).2.fence (1 - p) == true) &&
    ((dmapp_cdev_release s p).2.user p == none) &&
    (tokens (dmapp_cdev_release s p).2 == 1)

/-- Single-step preservation check, as a boolean so that it can be
settled by finite-state enumeration: from a one-token state, a
completed step keeps the token count at one, a successful acquisition
carries the parity `nextParity s` and flips `nextParity` to the other
side, and every other completed step leaves `nextParity` unchanged. -/
def stepInv (s : DmappState) (e : DmappEvent) : Bool :=
  match dmappStep s e with
  | none => true
  | some rs =>
    (tokens rs.2 == 1) &&
    (match isAcquire s e with
     | some p => (p == nextParity s) && (nextParity rs.2 == 1 - p)
     | none => nextParity rs.2 == nextParity s)

theorem stepInv_all : ∀ (s : DmappState) (e : DmappEvent),
    tokens s = 1 → stepInv s e = true := by decide

theorem tokens_dmappExec : ∀ (t : List DmappEvent) (s : DmappState),
    tokens s = 1 → tokens (dmappExec s t) = 1 := by
  intro t
  induction t with
  | nil => intro s h; exact h
  | cons e t ih =>
    intro s h
    have hinv := stepInv_all s e h
    unfold stepInv at hinv
    unfold dmappExec
    cases hs : dmappStep s e with
    | none => exact ih s h
    | some rs =>
      rw [hs] at hinv
      have h1 : tokens rs.2 = 1 := by
        cases ha : isAcquire s e with
        | none =>
          rw [ha] at hinv
          simp only [Bool.and_eq_true, beq_iff_eq] at hinv
          exact hinv.1
        | some p =>
          rw [ha] at hinv
          simp only [Bool.and_eq_true, beq_iff_eq] at hinv
          exact hinv.1
      exact ih rs.2 h1

theorem altFrom_dmappAcquires : ∀ (t : List DmappEvent) (s : DmappState),
    tokens s = 1 → altFrom (nextParity s) (dmappAcquires s t) = true := by
  intro t
  induction t with
  | nil => intro s h; rfl
  | cons e t ih =>
    intro s h
    have hinv := stepInv_all s e h
    unfold stepInv at hinv
    unfold dmappAcquires
    cases hs : dmappStep s e with
    | none => exact ih s h
    | some rs =>
      rw [hs] at hinv
      cases ha : isAcquire s e with
      | none =>
        rw [ha] at hinv
        simp only [Bool.and_eq_true, beq_iff_eq] at hinv
        rw [← hinv.2]
        exact ih rs.2 hinv.1
      | some p =>
        rw [ha] at hinv
        simp only [Bool.and_eq_true, beq_iff_eq] at hinv
        obtain ⟨h1, h2, h3⟩ := hinv
        unfold altFrom
        rw [h2]
        simp only [beq_self_eq_true, Bool.true_and]
        rw [← h2, ← h3]
        exact ih rs.2 h1

/-- C1 counterexample: the claim says the first successful acquire
after device attach is by the parity-0 participant.  But after both
participants open, fence[1] is the pre-signaled one and parity 1's
lock is the one that succeeds: the trace open, open, lock(1) has
acquisition-parity sequence [1], which is not an alternation starting
at 0. -/
theorem C1_counterexample :
    dmappAcquires dmapp_platform_driver_probe
      [DmappEvent.evOpen, DmappEvent.evOpen,
       DmappEvent.evIoctl 1 DmappCmd.bufferLock false] = [1] ∧
    altFrom 0 [1] = false := by decide

/-- C1 (amended): for every event trace from device attach, the
parities of the successful acquires form a strict alternation
1, 0, 1, 0, … beginning with parity 1 (the odd pass goes first). -/
theorem C1_strict_alternation_from_one :
    ∀ t : List DmappEvent,
      altFrom 1 (dmappAcquires dmapp_platform_driver_probe t) = true := by
  intro t
  have h := altFrom_dmappAcquires t dmapp_platform_driver_probe (by decide)
  have hn : nextParity dmapp_platform_driver_probe = 1 := by decide
  rwa [hn] at h

/-- C2: in every state reachable from device attach, the two
participants' `is_locked` flags are never both true: the locked
windows of the two parities never overlap. -/
theorem C2_mutual_exclusion :
    ∀ t : List DmappEvent,
      bothLocked (dmappExec dmapp_platform_driver_probe t) = false := by
  intro t
  have h := tokens_dmappExec t dmapp_platform_driver_probe (by decide)
  have hall : ∀ s : DmappState, tokens s = 1 → bothLocked s = false := by
    decide
  exact hall _ h

/-- C3 counterexample: the claim says a lock by parity `p` waits on
`signal[1-p]` and an unlock by `p` signals `signal[p]`.  In the state
with both users registered and fence[1] signaled, `signal[1-0]` is
signaled yet parity 0's lock does not complete (it waits on fence[0],
which is pending); and parity 1's unlock signals fence[0], leaving
`signal[1]` pending rather than signaled. -/
theorem C3_counterexample :
    dmapp_cdev_ioctl ⟨some false, some false, false, true⟩ 0
      DmappCmd.bufferLock false = none ∧
    (⟨some false, some false, false, true⟩ : DmappState).fence (1 - 0) =
      true ∧
    dmapp_cdev_ioctl ⟨some false, some true, false, false⟩ 1
      DmappCmd.bufferUnlock false =
      some (0, ⟨some false, some false, true, false⟩) ∧
    (⟨some false, some false, true, false⟩ : DmappState).fence 1 = false := by
  decide

/-- C3 (amended): a registered, not-yet-locked participant of parity
`p` is permitted to begin its turn exactly when its own `signal[p]`
is signaled (the lock waits on `signal[p]`), and its unlock makes
`signal[1-p]` signaled for the other side. -/
theorem C3_amended_wait_own_signal :
    (∀ (s : DmappState) (p : Fin 2), s.user p = some false →
      lockSucceeds s p = s.fence p) ∧
    (∀ (s : DmappState) (p : Fin 2), s.user p = some true →
      s.fence (1 - p) = false →
      dmapp_cdev_ioctl s p DmappCmd.bufferUnlock false =
        some (0, (s.setFence (1 - p) true).setUser p (some false))) := by
  decide

/-- C3 witness: parity 0 with fence[0] signaled may lock; parity 1
locked with fence[0] pending signals fence[0] on unlock. -/
theorem C3_amended_wait_own_signal_witness :
    lockSucceeds ⟨some false, none, true, false⟩ 0 =
      (⟨some false, none, true, false⟩ : DmappState).fence 0 ∧
    dmapp_cdev_ioctl ⟨some false, some true, false, false⟩ 1
      DmappCmd.bufferUnlock false =
      some (0, ((⟨some false, some true, false, false⟩ : DmappState).setFence
        (1 - 1) true).setUser 1 (some false)) :=
  ⟨C3_amended_wait_own_signal.1 ⟨some false, none, true, false⟩ 0 (by decide),
   C3_amended_wait_own_signal.2 ⟨some false, some true, false, false⟩ 1
     (by decide) (by decide)⟩

/-- C4: a registered, not-yet-locked participant of parity `p` blocks
while its own-parity `signal[p]` is pending and returns success 0 as
soon as `signal[p]` is signaled (re-arming it and setting
`is_locked`); a locked participant's unlock signals the other
parity's `signal[1-p]`.  In particular parity 0 waits on fence[0]
(a signaled fence[1] does not admit it) and signals fence[1] on
release. -/
theorem C4_crossed_fences :
    (∀ (s : DmappState) (p : Fin 2), s.user p = some false →
      s.fence p = false →
      dmapp_cdev_ioctl s p DmappCmd.bufferLock false = none) ∧
    (∀ (s : DmappState) (p : Fin 2), s.user p = some false →
      s.fence p = true →
      dmapp_cdev_ioctl s p DmappCmd.bufferLock false =
        some (0, (dma_fence_init_fence s p).setUser p (some true))) ∧
    (∀ (s : DmappState) (p : Fin 2), s.user p = some true →
      s.fence (1 - p) = false →
      dmapp_cdev_ioctl s p DmappCmd.bufferUnlock false =
        some (0, (s.setFence (1 - p) true).setUser p (some false))) ∧
    dmapp_cdev_ioctl ⟨some false, none, false, true⟩ 0
      DmappCmd.bufferLock false = none ∧
    dmapp_cdev_ioctl ⟨some true, none, false, false⟩ 0
      DmappCmd.bufferUnlock false =
      some (0, ⟨some false, none, false, true⟩) :=
  ⟨by decide, by decide, by decide, by decide, by decide⟩

/-- C4 witness: parity 0 blocked on pending fence[0], admitted by
signaled fence[0], and unlocking parity 1 signals fence[0]. -/
theorem C4_crossed_fences_witness :
    dmapp_cdev_ioctl ⟨some false, none, false, false⟩ 0
      DmappCmd.bufferLock false = none ∧
    dmapp_cdev_ioctl ⟨some false, none, true, false⟩ 0
      DmappCmd.bufferLock false =
      some (0, (dma_fence_init_fence ⟨some false, none, true, false⟩ 0).setUser
        0 (some true)) ∧
    dmapp_cdev_ioctl ⟨none, some true, false, false⟩ 1
      DmappCmd.bufferUnlock false =
      some (0, ((⟨none, some true, false, false⟩ : DmappState).setFence (1 - 1)
        true).setUser 1 (some false)) :=
  ⟨C4_crossed_fences.1 ⟨some false, none, false, false⟩ 0 (by decide)
     (by decide),
   C4_crossed_fences.2.1 ⟨some false, none, true, false⟩ 0 (by decide)
     (by decide),
   C4_crossed_fences.2.2.1 ⟨none, some true, false, false⟩ 1 (by decide)
     (by decide)⟩

/-- C5 counterexample: the claim says that after attach the parity-0
participant's first acquire succeeds immediately.  After attach and
both opens, parity 0's lock call does not complete at all (fence[0]
is pending), while parity 1's completes immediately. -/
theorem C5_counterexample :
    dmappExec dmapp_platform_driver_probe [DmappEvent.evOpen, DmappEvent.evOpen]
      = ⟨some false, some false, false, true⟩ ∧
    dmapp_cdev_ioctl ⟨some false, some false, false, true⟩ 0
      DmappCmd.bufferLock false = none := by decide

/-- C5 (amended): immediately after device attach signal[1] is
signaled and signal[0] is pending; consequently the first acquire by
the parity-1 participant succeeds immediately without waiting, the
parity-0 participant's acquire blocks, and once parity 1 releases,
parity 0's acquire completes successfully. -/
theorem C5_initial_handoff :
    dmapp_platform_driver_probe.fence 1 = true ∧
    dmapp_platform_driver_probe.fence 0 = false ∧
    dmappExec dmapp_platform_driver_probe [DmappEvent.evOpen, DmappEvent.evOpen]
      = ⟨some false, some false, false, true⟩ ∧
    dmapp_cdev_ioctl ⟨some false, some false, false, true⟩ 1
      DmappCmd.bufferLock false =
      some (0, ⟨some false, some true, false, false⟩) ∧
    dmapp_cdev_ioctl ⟨some false, some false, false, true⟩ 0
      DmappCmd.bufferLock false = none ∧
    dmapp_cdev_ioctl ⟨some false, some true, false, false⟩ 1
      DmappCmd.bufferUnlock false =
      some (0, ⟨some false, some false, true, false⟩) ∧
    dmapp_cdev_ioctl ⟨some false, some false, true, false⟩ 0
      DmappCmd.bufferLock false =
      some (0, ⟨some true, some false, false, false⟩) := by decide

/-- C6 counterexample: the claim says an unlock that finds the target
signal already signaled still returns success to the caller.  But
the unlock ioctl keeps `dma_fence_signal`'s `-EINVAL` as its return
value: with parity 0 locked and fence[1] already signaled, the
unlock clears the flag yet returns `-EINVAL`, not success. -/
theorem C6_counterexample :
    dmapp_cdev_ioctl ⟨some true, none, false, true⟩ 0
      DmappCmd.bufferUnlock false =
      some (-EINVAL, ⟨some false, none, false, true⟩) ∧
    -EINVAL ≠ (0 : Int) := by decide

/-- C6 (amended): an unlock that finds the target signal already
signaled still clears the caller's `is_locked` flag, but returns the
`-EINVAL` error from `dma_fence_signal` to the caller rather than
success; the disconnect-time abandonment path checks
`dma_fence_is_signaled` first, skips the duplicate signal, and
returns success. -/
theorem C6_duplicate_signal :
    (∀ (s : DmappState) (p : Fin 2), s.user p = some true →
      s.fence (1 - p) = true →
      dmapp_cdev_ioctl s p DmappCmd.bufferUnlock false =
        some (-EINVAL, s.setUser p (some false))) ∧
    (∀ (s : DmappState) (p : Fin 2), s.user p = some true →
      s.fence (1 - p) = true →
      dmapp_cdev_release s p = (0, s.setUser p none)) := by decide

/-- C6 witness: parity 0 locked with fence[1] already signaled. -/
theorem C6_duplicate_signal_witness :
    dmapp_cdev_ioctl ⟨some true, none, false, true⟩ 0
      DmappCmd.bufferUnlock false =
      some (-EINVAL, (⟨some true, none, false, true⟩ : DmappState).setUser 0
        (some false)) ∧
    dmapp_cdev_release ⟨some true, none, false, true⟩ 0 =
      (0, (⟨some true, none, false, true⟩ : DmappState).setUser 0 none) :=
  ⟨C6_duplicate_signal.1 ⟨some true, none, false, true⟩ 0 (by decide)
     (by decide),
   C6_duplicate_signal.2 ⟨some true, none, false, true⟩ 0 (by decide)
     (by decide)⟩

/-- C7: an interrupted blocking acquire by a registered, not-locked
participant returns the distinct error `-ERESTARTSYS` and leaves the
whole state unchanged: the flag is not set and the waited-on fence is
not re-armed, so a retry starts from the very same state. -/
theorem C7_interrupted_wait :
    (∀ (s : DmappState) (p : Fin 2), s.user p = some false →
      dmapp_cdev_ioctl s p DmappCmd.bufferLock true =
        some (-ERESTARTSYS, s)) ∧
    -ERESTARTSYS ≠ (0 : Int) ∧ -ERESTARTSYS ≠ -EINVAL ∧
    -ERESTARTSYS ≠ -ENOTTY := by
  exact ⟨by decide, by decide, by decide, by decide⟩

/-- C7 witness: interrupted lock of parity 0 in the post-attach state
with one registered user. -/
theorem C7_interrupted_wait_witness :
    dmapp_cdev_ioctl ⟨some false, none, false, true⟩ 0
      DmappCmd.bufferLock true =
      some (-ERESTARTSYS, ⟨some false, none, false, true⟩) :=
  C7_interrupted_wait.1 ⟨some false, none, false, true⟩ 0 (by decide)

/-- C8: a close by a participant whose `is_locked` flag is true
signals the other parity's fence exactly as a release would (and
tolerates that fence already being signaled by skipping the
duplicate), so the remaining registered participant's next acquire
completes successfully; a close while not locked signals nothing
(the state changes only by clearing the slot). -/
theorem C8_abandonment :
    (∀ (s : DmappState) (p : Fin 2), s.user p = some true →
      s.fence (1 - p) = false →
      dmapp_cdev_release s p = (0, (s.setUser p none).setFence (1 - p) true)) ∧
    (∀ (s : DmappState) (p : Fin 2), s.user p = some true →
      s.fence (1 - p) = true →
      dmapp_cdev_release s p = (0, s.setUser p none)) ∧
    (∀ (s : DmappState) (p : Fin 2), s.user p = some false →
      dmapp_cdev_release s p = (0, s.setUser p none)) ∧
    (∀ (s : DmappState) (p : Fin 2), s.user p = some true →
      s.user (1 - p) = some false → s.fence (1 - p) = false →
      lockSucceeds (dmapp_cdev_release s p).2 (1 - p) = true) := by decide

/-- C8 witness: parity 1 disconnects mid-turn, fence[0] fires and
parity 0's next acquire succeeds; a not-locked disconnect only clears
its slot. -/
theorem C8_abandonment_witness :
    dmapp_cdev_release ⟨some false, some true, false, false⟩ 1 =
      (0, ((⟨some false, some true, false, false⟩ : DmappState).setUser 1
        none).setFence (1 - 1) true) ∧
    lockSucceeds
      (dmapp_cdev_release ⟨some false, some true, false, false⟩ 1).2 (1 - 1) =
      true ∧
    dmapp_cdev_release ⟨some false, none, false, true⟩ 0 =
      (0, (⟨some false, none, false, true⟩ : DmappState).setUser 0 none) :=
  ⟨C8_abandonment.1 ⟨some false, some true, false, false⟩ 1 (by decide)
     (by decide),
   C8_abandonment.2.2.2 ⟨some false, some true, false, false⟩ 1 (by decide)
     (by decide) (by decide),
   C8_abandonment.2.2.1 ⟨some false, none, false, true⟩ 0 (by decide)⟩

/-- C9: with both user slots occupied, a third open fails with
`-EINVAL` and changes nothing; slots are scanned first-free (slot 0
before slot 1); and after one of the two participants closes, the
next open succeeds and registers the new user in exactly the freed
slot. -/
theorem C9_capacity :
    (∀ s : DmappState, s.user0 ≠ none → s.user1 ≠ none →
      dmapp_cdev_open s = (-EINVAL, s)) ∧
    (∀ s : DmappState, s.user0 = none →
      dmapp_cdev_open s = (0, { s with user0 := some false })) ∧
    (∀ s : DmappState, s.user0 ≠ none → s.user1 = none →
      dmapp_cdev_open s = (0, { s with user1 := some false })) ∧
    (∀ (s : DmappState) (p : Fin 2), s.user0 ≠ none → s.user1 ≠ none →
      dmapp_cdev_open (dmapp_cdev_release s p).2 =
        (0, ((dmapp_cdev_release s p).2).setUser p (some false))) := by decide

/-- C9 witness: a third open on a full device fails and changes
nothing; after slot 1's user closes, the next open takes slot 1. -/
theorem C9_capacity_witness :
    dmapp_cdev_open ⟨some false, some false, false, true⟩ =
      (-EINVAL, ⟨some false, some false, false, true⟩) ∧
    dmapp_cdev_open
      (dmapp_cdev_release ⟨some false, some false, false, true⟩ 1).2 =
      (0, ((dmapp_cdev_release ⟨some false, some false, false, true⟩ 1).2).setUser
        1 (some false)) :=
  ⟨C9_capacity.1 ⟨some false, some false, false, true⟩ (by decide) (by decide),
   C9_capacity.2.2.2 ⟨some false, some false, false, true⟩ 1 (by decide)
     (by decide)⟩

/-- C10: token conservation.  In every state reachable from device
attach, the number of signaled fences plus the number of registered
users whose `is_locked` flag is true equals exactly one; from any
one-token state, a successful lock moves the token from the consumed
fence (re-armed to pending) to the caller's flag, and an unlock or a
disconnect-time abandonment moves it from the flag to the other
parity's fence, each preserving the count. -/
theorem C10_token_conservation :
    (∀ t : List DmappEvent,
      tokens (dmappExec dmapp_platform_driver_probe t) = 1) ∧
    (∀ (s : DmappState) (p : Fin 2), tokens s = 1 → s.user p = some false →
      s.fence p = true → lockMovesToken s p = true) ∧
    (∀ (s : DmappState) (p : Fin 2), tokens s = 1 → s.user p = some true →
      unlockMovesToken s p = true) ∧
    (∀ (s : DmappState) (p : Fin 2), tokens s = 1 → s.user p = some true →
      releaseMovesToken s p = true) :=
  ⟨fun t => tokens_dmappExec t dmapp_platform_driver_probe (by decide),
   by decide, by decide, by decide⟩

/-- C10 witness: the token moves fence[1] → flag[1] → fence[0] in the
first handoff, and abandonment moves flag[1] → fence[0] as well. -/
theorem C10_token_conservation_witness :
    lockMovesToken ⟨some false, some false, false, true⟩ 1 = true ∧
    unlockMovesToken ⟨some false, some true, false, false⟩ 1 = true ∧
    releaseMovesToken ⟨some false, some true, false, false⟩ 1 = true :=
  ⟨C10_token_conservation.2.1 ⟨some false, some false, false, true⟩ 1
     (by decide) (by decide) (by decide),
   C10_token_conservation.2.2.1 ⟨some false, some true, false, false⟩ 1
     (by decide) (by decide),
   C10_token_conservation.2.2.2 ⟨some false, some true, false, false⟩ 1
     (by decide) (by decide)⟩
